import Mathlib

/-!
Verification development for the ESP32 MVC menu system
(shared Model state, menu FSM controller, button debouncing,
and the readiness handshake).

The definitions below are a shallow embedding of the C++ sources:
  * Model.h / the Model part of TaskManager.cpp  (shared state store),
  * the Controller part of SimpleLCD.h           (button reading, FSM),
  * Synchronization.h / its implementation file  (readiness event bits),
  * main.cpp                                     (startup sequence).
C++ `int` is modelled as Int (no overflow is reachable: the menu index
stays in [0,4)), C++ truncating `%` as Int.tmod, `millis()` timestamps
as Nat (the 32-bit wraparound of `unsigned long` is unreachable for the
monotone timestamps produced by the poll loop), GPIO levels as Bool with
true = HIGH and false = LOW, and lock acquisition outcomes as an explicit
Bool parameter (true = the FreeRTOS mutex take succeeded within its
bounded timeout).
-/

namespace ESP32Menu

/-- SystemState from Model.h: the FSM states. -/
inductive SystemState where
  | STATE_MENU
  | STATE_SETTINGS
  | STATE_ABOUT
  | STATE_CONFIRM_EXIT
deriving DecidableEq, Repr

/-- SystemEvent from Model.h: abstract input events. -/
inductive SystemEvent where
  | EVENT_UP
  | EVENT_DOWN
  | EVENT_LEFT
  | EVENT_RIGHT
  | EVENT_SELECT1
  | EVENT_SELECT2
  | EVENT_TIMEOUT
  | EVENT_NONE
deriving DecidableEq, Repr

/-- The mutable fields of the Model singleton that the claims are about
(menu index, FSM state, state-changed flag).  Time and the RTC are
external peripherals and not part of this state. -/
structure ModelState where
  m_menuIndex : Int
  m_currentState : SystemState
  m_stateChanged : Bool
deriving DecidableEq, Repr

/-- Model::m_menuItems — the static menu item list. -/
def m_menuItems : List String := ["Home", "Settings", "About", "Exit"]

/-- Model::m_menuLength = sizeof(m_menuItems)/sizeof(m_menuItems[0]) = 4. -/
def m_menuLength : Int := (m_menuItems.length : Int)

/-- Model::Model() — the constructed initial state:
m_menuIndex = 0, m_currentState = STATE_MENU, m_stateChanged = false. -/
def initialModel : ModelState :=
  { m_menuIndex := 0, m_currentState := SystemState.STATE_MENU, m_stateChanged := false }

/-- Model::getMenuIndex.  lockOk tells whether xSemaphoreTake on
m_stateMutex succeeded within its 10-tick timeout; on failure the local
`int index = 0;` is returned unchanged. -/
def getMenuIndex (s : ModelState) (lockOk : Bool) : Int :=
  if lockOk then s.m_menuIndex else 0

/-- Model::getCurrentState.  On lock failure the local
`SystemState state = STATE_MENU;  // Default fallback` is returned. -/
def getCurrentState (s : ModelState) (lockOk : Bool) : SystemState :=
  if lockOk then s.m_currentState else SystemState.STATE_MENU

/-- Model::setMenuIndex, successful-lock path: if the index is in
[0, m_menuLength) it is stored and m_stateChanged is set; otherwise
nothing happens. -/
def setMenuIndex (s : ModelState) (index : Int) : ModelState :=
  if 0 ≤ index ∧ index < m_menuLength then
    { s with m_menuIndex := index, m_stateChanged := true }
  else s

/-- Model::incrementMenuIndex, successful-lock path:
m_menuIndex = (m_menuIndex + 1) % m_menuLength (C++ truncating %). -/
def incrementMenuIndex (s : ModelState) : ModelState :=
  { s with m_menuIndex := (s.m_menuIndex + 1).tmod m_menuLength,
           m_stateChanged := true }

/-- Model::decrementMenuIndex, successful-lock path:
m_menuIndex = (m_menuIndex - 1 + m_menuLength) % m_menuLength. -/
def decrementMenuIndex (s : ModelState) : ModelState :=
  { s with m_menuIndex := (s.m_menuIndex - 1 + m_menuLength).tmod m_menuLength,
           m_stateChanged := true }

/-- Model::setState, successful-lock path: only updates (and marks
changed) if the new state differs from the current one. -/
def setState (s : ModelState) (newState : SystemState) : ModelState :=
  if s.m_currentState ≠ newState then
    { s with m_currentState := newState, m_stateChanged := true }
  else s

/-- Model::hasStateChanged, successful-lock path. -/
def hasStateChanged (s : ModelState) : Bool :=
  s.m_stateChanged

/-- Model::clearStateChanged, successful-lock path. -/
def clearStateChanged (s : ModelState) : ModelState :=
  { s with m_stateChanged := false }

/-- Model::getMenuItem: returns the index-th item for an in-range index
and the literal "Invalid" otherwise. -/
def getMenuItem (index : Int) : String :=
  if 0 ≤ index ∧ index < m_menuLength then
    m_menuItems.getD index.toNat ""
  else "Invalid"

/-- Model::getCurrentMenuItem = getMenuItem(getMenuIndex()). -/
def getCurrentMenuItem (s : ModelState) (lockOk : Bool) : String :=
  getMenuItem (getMenuIndex s lockOk)

/-- Controller::handleMenuState (SimpleLCD.h): Up decrements, Down
increments, Select1 dispatches on the current menu index (0 = Home only
refreshes the displayed time, touching no FSM/menu/changed state;
1/2/3 transition), Select2 only logs, all other events fall through the
default branch.  All lock acquisitions succeed on this path. -/
def handleMenuState (s : ModelState) (event : SystemEvent) : ModelState :=
  match event with
  | SystemEvent.EVENT_UP => decrementMenuIndex s
  | SystemEvent.EVENT_DOWN => incrementMenuIndex s
  | SystemEvent.EVENT_SELECT1 =>
    let menuIndex := getMenuIndex s true
    if menuIndex = 0 then s
    else if menuIndex = 1 then setState s SystemState.STATE_SETTINGS
    else if menuIndex = 2 then setState s SystemState.STATE_ABOUT
    else if menuIndex = 3 then setState s SystemState.STATE_CONFIRM_EXIT
    else s
  | _ => s

/-- Controller::handleSettingsState: Left/Select2 return to the menu,
Select1 only logs, everything else is the default branch. -/
def handleSettingsState (s : ModelState) (event : SystemEvent) : ModelState :=
  match event with
  | SystemEvent.EVENT_LEFT => setState s SystemState.STATE_MENU
  | SystemEvent.EVENT_SELECT2 => setState s SystemState.STATE_MENU
  | _ => s

/-- Controller::handleAboutState: Left/Select2 return to the menu. -/
def handleAboutState (s : ModelState) (event : SystemEvent) : ModelState :=
  match event with
  | SystemEvent.EVENT_LEFT => setState s SystemState.STATE_MENU
  | SystemEvent.EVENT_SELECT2 => setState s SystemState.STATE_MENU
  | _ => s

/-- Controller::handleConfirmExitState: Select1 confirms (currently also
returns to the menu), Left/Select2 cancel back to the menu. -/
def handleConfirmExitState (s : ModelState) (event : SystemEvent) : ModelState :=
  match event with
  | SystemEvent.EVENT_SELECT1 => setState s SystemState.STATE_MENU
  | SystemEvent.EVENT_LEFT => setState s SystemState.STATE_MENU
  | SystemEvent.EVENT_SELECT2 => setState s SystemState.STATE_MENU
  | _ => s

/-- Controller::handleEvent: routes the event to the handler for the
current FSM state (read through getCurrentState with the lock granted). -/
def handleEvent (s : ModelState) (event : SystemEvent) : ModelState :=
  match getCurrentState s true with
  | SystemState.STATE_MENU => handleMenuState s event
  | SystemState.STATE_SETTINGS => handleSettingsState s event
  | SystemState.STATE_ABOUT => handleAboutState s event
  | SystemState.STATE_CONFIRM_EXIT => handleConfirmExitState s event

/-- A sequence of events dispatched one at a time by the button task
(Controller::buttonTask calls handleEvent once per detected event). -/
def applyControllerEvents (s : ModelState) (events : List SystemEvent) : ModelState :=
  events.foldl handleEvent s

/-- The state-mutating operations of the Model interface (reads do not
change the state and are therefore not listed). -/
inductive ModelOp where
  | opSetMenuIndex (i : Int)
  | opIncrementMenuIndex
  | opDecrementMenuIndex
  | opSetState (st : SystemState)
  | opClearStateChanged
deriving DecidableEq, Repr

/-- Apply one Model operation on the successful-lock path. -/
def applyOp (s : ModelState) (op : ModelOp) : ModelState :=
  match op with
  | ModelOp.opSetMenuIndex i => setMenuIndex s i
  | ModelOp.opIncrementMenuIndex => incrementMenuIndex s
  | ModelOp.opDecrementMenuIndex => decrementMenuIndex s
  | ModelOp.opSetState st => setState s st
  | ModelOp.opClearStateChanged => clearStateChanged s

/-- Apply a sequence of Model operations. -/
def applyOps (s : ModelState) (ops : List ModelOp) : ModelState :=
  ops.foldl applyOp s

/-- The spec's §3 invariant on the shared state: the menu index stays
inside the bounds of the static menu item list. -/
def menuInvariant (s : ModelState) : Prop :=
  0 ≤ s.m_menuIndex ∧ s.m_menuIndex < m_menuLength

/-- ButtonConfig from Controller.h, minus the fixed pin number: last raw
level seen (true = HIGH), millis() of the last level change, and the
debounced pressed flag. -/
structure ButtonConfig where
  lastState : Bool
  lastDebounceTime : Nat
  pressed : Bool
deriving DecidableEq, Repr

/-- Controller::DEBOUNCE_DELAY = 50 ms. -/
def DEBOUNCE_DELAY : Nat := 50

/-- The event returned for button slot i in Controller::readButtons
(the switch on the loop index). -/
def buttonEvent : Nat → SystemEvent
  | 0 => SystemEvent.EVENT_UP
  | 1 => SystemEvent.EVENT_DOWN
  | 2 => SystemEvent.EVENT_LEFT
  | 3 => SystemEvent.EVENT_RIGHT
  | 4 => SystemEvent.EVENT_SELECT1
  | _ => SystemEvent.EVENT_SELECT2

/-- The loop body of Controller::readButtons, processing the buttons
from slot i upward.  raw gives the digitalRead level of each slot this
cycle (true = HIGH, false = LOW), currentTime is millis().  A change of
raw level restamps lastDebounceTime; once the level has been stable
longer than DEBOUNCE_DELAY, a low level on a not-yet-pressed button
returns its event immediately (leaving the remaining buttons untouched
this cycle), and a high level on a pressed button clears the pressed
flag; in all non-returning paths lastState is updated at the bottom of
the loop. -/
def readButtonsAux (raw : Nat → Bool) (currentTime : Nat) :
    List ButtonConfig → Nat → List ButtonConfig × SystemEvent
  | [], _ => ([], SystemEvent.EVENT_NONE)
  | b :: rest, i =>
    let currentState := raw i
    let b1 := if currentState != b.lastState
      then { b with lastDebounceTime := currentTime } else b
    if currentTime - b1.lastDebounceTime > DEBOUNCE_DELAY then
      if !b1.pressed && currentState == false then
        ({ b1 with pressed := true, lastState := currentState } :: rest, buttonEvent i)
      else
        let b2 := if b1.pressed && currentState == true
          then { b1 with pressed := false } else b1
        let next := readButtonsAux raw currentTime rest (i + 1)
        ({ b2 with lastState := currentState } :: next.1, next.2)
    else
      let next := readButtonsAux raw currentTime rest (i + 1)
      ({ b1 with lastState := currentState } :: next.1, next.2)

/-- Controller::readButtons: one debounce pass over the six buttons,
starting at slot 0. -/
def readButtons (buttons : List ButtonConfig) (raw : Nat → Bool) (currentTime : Nat) :
    List ButtonConfig × SystemEvent :=
  readButtonsAux raw currentTime buttons 0

/-- Controller::initializeButtons: every slot starts at level HIGH
(input pull-up, not pressed), debounce stamp 0, pressed = false. -/
def initButtons : List ButtonConfig :=
  List.replicate 6 { lastState := true, lastDebounceTime := 0, pressed := false }

/-- The qualifying condition of the press branch of readButtons for one
button, in terms of the values at loop entry: after restamping on a raw
level change, the level has been stable longer than DEBOUNCE_DELAY, the
button is not already pressed, and the raw level is LOW. -/
def qualifies (raw : Nat → Bool) (currentTime : Nat) (i : Nat) (b : ButtonConfig) : Bool :=
  let currentState := raw i
  let debounceStart := if currentState != b.lastState then currentTime else b.lastDebounceTime
  decide (currentTime - debounceStart > DEBOUNCE_DELAY) && !b.pressed && currentState == false

/-- Index of the first button, scanning from slot i upward, whose press
branch qualifies this cycle. -/
def firstQualifying (raw : Nat → Bool) (currentTime : Nat) :
    List ButtonConfig → Nat → Option Nat
  | [], _ => none
  | b :: rest, i =>
    if qualifies raw currentTime i b then some i
    else firstQualifying raw currentTime rest (i + 1)

/-- The event-emitting skeleton of Controller::buttonTask over a finite
trace of poll cycles: each cycle reads the buttons at the sampled time
and raw levels (a list of the six levels; missing entries read HIGH) and
collects the event when it is not EVENT_NONE. -/
def runPolls : List (Nat × List Bool) → List ButtonConfig → List SystemEvent
  | [], _ => []
  | (t, raw) :: rest, buttons =>
    match readButtons buttons (fun i => raw.getD i true) t with
    | (buttons1, ev) =>
      if ev = SystemEvent.EVENT_NONE then runPolls rest buttons1
      else ev :: runPolls rest buttons1

/-- The spec §8 scenario trace: 10 ms polls on the Up line, a first
press edge at t = 10, a release edge at t = 20, a second press edge at
t = 30 (the two presses 20 ms apart, inside the 50 ms window), then the
line held LOW; the other five lines stay HIGH throughout. -/
def twoPressTrace : List (Nat × List Bool) :=
  [(0, [true, true, true, true, true, true]),
   (10, [false, true, true, true, true, true]),
   (20, [true, true, true, true, true, true]),
   (30, [false, true, true, true, true, true]),
   (40, [false, true, true, true, true, true]),
   (50, [false, true, true, true, true, true]),
   (60, [false, true, true, true, true, true]),
   (70, [false, true, true, true, true, true]),
   (80, [false, true, true, true, true, true]),
   (90, [false, true, true, true, true, true]),
   (100, [false, true, true, true, true, true])]

/-- Event-group bits from Synchronization.h. -/
def STATE_CHANGED_BIT : Nat := 1

/-- BIT1: the display tasks have signalled ready. -/
def DISPLAY_READY_BIT : Nat := 2

/-- BIT2: the controller task has signalled ready. -/
def CONTROLLER_READY_BIT : Nat := 4

/-- BIT3: shutdown requested. -/
def SYSTEM_SHUTDOWN_BIT : Nat := 8

/-- Synchronization::waitForAllBits.  The FreeRTOS call
xEventGroupWaitBits(group, bits, no-clear, wait-all, timeout) blocks
until all requested bits are set or the timeout expires, and returns the
event-group bit mask as observed at the moment of return; the embedding
takes that observed mask (`some g`) as input, abstracting the blocking
wait.  A null event group (`none`) returns 0. -/
def waitForAllBits (group : Option Nat) (bits : Nat) : Nat :=
  match group with
  | none => 0
  | some g => g

/-- Synchronization::waitForSystemReady: requires both the display-ready
and controller-ready bits in the mask returned by waitForAllBits. -/
def waitForSystemReady (group : Option Nat) : Bool :=
  let requiredBits := DISPLAY_READY_BIT ||| CONTROLLER_READY_BIT
  let result := waitForAllBits group requiredBits
  (result &&& requiredBits) == requiredBits

/-- The readiness phase at the end of setup() in main.cpp:
g_systemInitialized (starting false) is set to true only when
waitForSystemReady succeeds; otherwise "System startup timeout!" is
reported and cleanup() runs.  Result: (g_systemInitialized,
startupFailureReported).  Nothing after setup() ever sets
g_systemInitialized. -/
def setupReadyPhase (group : Option Nat) : Bool × Bool :=
  if waitForSystemReady group then (true, false) else (false, true)

/-! Helper lemmas shared by the claim theorems. -/

lemma m_menuLength_eq : m_menuLength = 4 := rfl

lemma incrementMenuIndex_idx (s : ModelState) (h0 : 0 ≤ s.m_menuIndex) :
    (incrementMenuIndex s).m_menuIndex = (s.m_menuIndex + 1) % 4 := by
  simp only [incrementMenuIndex, m_menuLength_eq]
  exact Int.tmod_eq_emod (by omega) (by norm_num)

lemma decrementMenuIndex_idx (s : ModelState) (h0 : 0 ≤ s.m_menuIndex) :
    (decrementMenuIndex s).m_menuIndex = (s.m_menuIndex - 1 + 4) % 4 := by
  simp only [decrementMenuIndex, m_menuLength_eq]
  exact Int.tmod_eq_emod (by omega) (by norm_num)

lemma applyOp_preserves (s : ModelState) (op : ModelOp) (h : menuInvariant s) :
    menuInvariant (applyOp s op) := by
  obtain ⟨h0, h4⟩ := h
  rw [m_menuLength_eq] at h4
  unfold menuInvariant
  rw [m_menuLength_eq]
  cases op with
  | opSetMenuIndex i =>
    simp only [applyOp, setMenuIndex, m_menuLength_eq]
    split
    · rename_i hcond
      exact ⟨hcond.1, hcond.2⟩
    · exact ⟨h0, h4⟩
  | opIncrementMenuIndex =>
    simp only [applyOp]
    rw [incrementMenuIndex_idx s h0]
    omega
  | opDecrementMenuIndex =>
    simp only [applyOp]
    rw [decrementMenuIndex_idx s h0]
    omega
  | opSetState st =>
    simp only [applyOp, setState]
    split
    · exact ⟨h0, h4⟩
    · exact ⟨h0, h4⟩
  | opClearStateChanged =>
    exact ⟨h0, h4⟩

lemma applyOps_preserves (ops : List ModelOp) :
    ∀ s : ModelState, menuInvariant s → menuInvariant (applyOps s ops) := by
  induction ops with
  | nil => intro s h; exact h
  | cons op rest ih =>
    intro s h
    exact ih (applyOp s op) (applyOp_preserves s op h)

/-! Claims about the Model mutators and accessors. -/

/-- Claim C4: for every integer i outside [0, 4) and every Model state,
setMenuIndex(i) on the successful-lock path leaves the whole state
unchanged — the menu index and the changed flag keep their prior values
and no error is surfaced (the operation is total and returns the state
as-is). -/
theorem claim_C4_setMenuIndex_out_of_range_noop (s : ModelState) (i : Int)
    (h : i < 0 ∨ 4 ≤ i) : setMenuIndex s i = s := by
  simp only [setMenuIndex, m_menuLength_eq]
  rw [if_neg (by omega)]

/-- Witness for C4 at s = initialModel, i = -1. -/
theorem claim_C4_witness :
    setMenuIndex initialModel (-1) = initialModel :=
  claim_C4_setMenuIndex_out_of_range_noop initialModel (-1) (Or.inl (by decide))

/-- Counterexample to claim C5 as stated: at the initial state
(menu index 0, changed flag false) the in-range index 0 equals the
current index, yet setMenuIndex(0) does not leave the state unchanged —
it sets the changed flag. -/
theorem claim_C5_counterexample :
    0 ≤ initialModel.m_menuIndex ∧ initialModel.m_menuIndex < m_menuLength ∧
    setMenuIndex initialModel initialModel.m_menuIndex ≠ initialModel := by
  decide

/-- Claim C5 as amended: setState is idempotently suppressed (setting
the current state again changes nothing, including the changed flag),
but setMenuIndex is not — for every in-range index equal to the current
menu index it leaves the index unchanged yet still sets the changed
flag. -/
theorem claim_C5_amended :
    (∀ s : ModelState, setState s s.m_currentState = s) ∧
    (∀ (s : ModelState) (i : Int), 0 ≤ i → i < m_menuLength → i = s.m_menuIndex →
      setMenuIndex s i = { s with m_stateChanged := true }) := by
  constructor
  · intro s
    simp [setState]
  · intro s i h0 h4 he
    cases s
    subst he
    simp only [setMenuIndex]
    rw [if_pos ⟨h0, h4⟩]

/-- Witness for the amended C5 at s = initialModel, i = 0. -/
theorem claim_C5_witness :
    setMenuIndex initialModel 0 = { initialModel with m_stateChanged := true } :=
  claim_C5_amended.2 initialModel 0 (by decide) (by decide) (by decide)

/-- Counterexample to claim C6 as stated: with stored state
(menu index 2, FSM state About) — values a successful read does observe —
a read under lock-acquisition failure returns 0 and STATE_MENU, not the
last successfully observed 2 and STATE_ABOUT. -/
theorem claim_C6_counterexample :
    getMenuIndex { m_menuIndex := 2, m_currentState := SystemState.STATE_ABOUT,
                   m_stateChanged := false } true = 2 ∧
    getMenuIndex { m_menuIndex := 2, m_currentState := SystemState.STATE_ABOUT,
                   m_stateChanged := false } false = 0 ∧
    getCurrentState { m_menuIndex := 2, m_currentState := SystemState.STATE_ABOUT,
                      m_stateChanged := false } true = SystemState.STATE_ABOUT ∧
    getCurrentState { m_menuIndex := 2, m_currentState := SystemState.STATE_ABOUT,
                      m_stateChanged := false } false = SystemState.STATE_MENU ∧
    (0 : Int) ≠ 2 ∧ SystemState.STATE_MENU ≠ SystemState.STATE_ABOUT := by
  decide

/-- Claim C6 as amended: when a read accessor fails to acquire the state
lock within its bounded timeout it returns a fixed fallback default —
getMenuIndex returns 0 and getCurrentState returns STATE_MENU —
regardless of the stored (previously observed) values. -/
theorem claim_C6_amended (s : ModelState) :
    getMenuIndex s false = 0 ∧ getCurrentState s false = SystemState.STATE_MENU :=
  ⟨rfl, rfl⟩

/-- Claim C7: starting from the constructed initial state
(menu index 0), every sequence of Model mutations (setMenuIndex,
incrementMenuIndex, decrementMenuIndex, setState, clearStateChanged;
reads do not mutate) keeps the menu index inside [0, 4). -/
theorem claim_C7_menu_invariant (ops : List ModelOp) :
    0 ≤ (applyOps initialModel ops).m_menuIndex ∧
    (applyOps initialModel ops).m_menuIndex < 4 := by
  have h := applyOps_preserves ops initialModel (by constructor <;> decide)
  obtain ⟨h0, h4⟩ := h
  rw [m_menuLength_eq] at h4
  exact ⟨h0, h4⟩

/-- Claim C10: getMenuItem is total over the integers — every index
outside [0, 4) yields the literal "Invalid" and each in-range index
yields the corresponding static menu item; consequently
getCurrentMenuItem always returns one of the menu strings or "Invalid"
(a definite string on every path, never an out-of-bounds access). -/
theorem claim_C10_getMenuItem_total :
    (∀ i : Int, i < 0 ∨ 4 ≤ i → getMenuItem i = "Invalid") ∧
    (getMenuItem 0 = "Home" ∧ getMenuItem 1 = "Settings" ∧
     getMenuItem 2 = "About" ∧ getMenuItem 3 = "Exit") ∧
    (∀ (s : ModelState) (lockOk : Bool),
      getCurrentMenuItem s lockOk ∈ m_menuItems ∨
      getCurrentMenuItem s lockOk = "Invalid") := by
  refine ⟨?_, ⟨rfl, rfl, rfl, rfl⟩, ?_⟩
  · intro i h
    simp only [getMenuItem, m_menuLength_eq]
    rw [if_neg (by omega)]
  · intro s lockOk
    cases lockOk with
    | false =>
      left
      show getMenuItem 0 ∈ m_menuItems
      decide
    | true =>
      have hIdx : getMenuIndex s true = s.m_menuIndex := rfl
      by_cases h : 0 ≤ s.m_menuIndex ∧ s.m_menuIndex < 4
      · left
        have hi : s.m_menuIndex = 0 ∨ s.m_menuIndex = 1 ∨
            s.m_menuIndex = 2 ∨ s.m_menuIndex = 3 := by omega
        show getMenuItem (getMenuIndex s true) ∈ m_menuItems
        rw [hIdx]
        rcases hi with h1 | h1 | h1 | h1 <;> rw [h1] <;> decide
      · right
        show getMenuItem (getMenuIndex s true) = "Invalid"
        rw [hIdx]
        unfold getMenuItem
        rw [m_menuLength_eq, if_neg (by omega)]

/-- Witness for C10 at the out-of-range index 7. -/
theorem claim_C10_witness : getMenuItem 7 = "Invalid" :=
  claim_C10_getMenuItem_total.1 7 (Or.inr (by decide))

/-! Claims about the menu FSM. -/

/-- Claim C1: for every finite sequence of Up/Down events handled while
the FSM is in Menu state (each applied through handleMenuState, Up
calling decrementMenuIndex and Down calling incrementMenuIndex, with
every lock acquisition succeeding), the final menu index equals
(initial index + number of Downs - number of Ups) mod 4. -/
theorem claim_C1_menu_index_counter (events : List SystemEvent) (s : ModelState)
    (hev : ∀ e ∈ events, e = SystemEvent.EVENT_UP ∨ e = SystemEvent.EVENT_DOWN)
    (h0 : 0 ≤ s.m_menuIndex) (h4 : s.m_menuIndex < m_menuLength) :
    (events.foldl handleMenuState s).m_menuIndex =
      (s.m_menuIndex + (events.count SystemEvent.EVENT_DOWN : Int)
        - (events.count SystemEvent.EVENT_UP : Int)) % 4 := by
  rw [m_menuLength_eq] at h4
  induction events generalizing s with
  | nil =>
    simp only [List.foldl_nil, List.count_nil, Nat.cast_zero]
    omega
  | cons e rest ih =>
    rcases hev e (List.mem_cons_self e rest) with hUp | hDown
    · subst hUp
      have hstep : handleMenuState s SystemEvent.EVENT_UP = decrementMenuIndex s := rfl
      have hidx := decrementMenuIndex_idx s h0
      rw [List.foldl_cons, hstep,
        ih (decrementMenuIndex s)
          (fun e he => hev e (List.mem_cons_of_mem _ he))
          (by rw [hidx]; omega) (by rw [hidx]; omega),
        hidx, List.count_cons_self,
        List.count_cons_of_ne (by decide : SystemEvent.EVENT_DOWN ≠ SystemEvent.EVENT_UP)]
      push_cast
      omega
    · subst hDown
      have hstep : handleMenuState s SystemEvent.EVENT_DOWN = incrementMenuIndex s := rfl
      have hidx := incrementMenuIndex_idx s h0
      rw [List.foldl_cons, hstep,
        ih (incrementMenuIndex s)
          (fun e he => hev e (List.mem_cons_of_mem _ he))
          (by rw [hidx]; omega) (by rw [hidx]; omega),
        hidx, List.count_cons_self,
        List.count_cons_of_ne (by decide : SystemEvent.EVENT_UP ≠ SystemEvent.EVENT_DOWN)]
      push_cast
      omega

/-- Witness for C1: [Down, Down, Up] from the initial state ends at
menu index (0 + 2 - 1) mod 4 = 1. -/
theorem claim_C1_witness :
    ([SystemEvent.EVENT_DOWN, SystemEvent.EVENT_DOWN,
      SystemEvent.EVENT_UP].foldl handleMenuState initialModel).m_menuIndex =
      (initialModel.m_menuIndex
        + ([SystemEvent.EVENT_DOWN, SystemEvent.EVENT_DOWN,
            SystemEvent.EVENT_UP].count SystemEvent.EVENT_DOWN : Int)
        - ([SystemEvent.EVENT_DOWN, SystemEvent.EVENT_DOWN,
            SystemEvent.EVENT_UP].count SystemEvent.EVENT_UP : Int)) % 4 :=
  claim_C1_menu_index_counter _ initialModel (by decide) (by decide) (by decide)

/-- Claim C2: from (Menu, index 0) with menu
["Home", "Settings", "About", "Exit"], the event sequence
[Down, Down, Select1] through handleEvent ends at FSM state About with
menu index 2; and in Menu state, Select1 dispatches on the current
index — 0 performs no state change (it only refreshes the time),
1 sets Settings, 2 sets About, 3 sets ConfirmExit. -/
theorem claim_C2_select_dispatch :
    ((applyControllerEvents initialModel
        [SystemEvent.EVENT_DOWN, SystemEvent.EVENT_DOWN,
         SystemEvent.EVENT_SELECT1]).m_currentState = SystemState.STATE_ABOUT ∧
     (applyControllerEvents initialModel
        [SystemEvent.EVENT_DOWN, SystemEvent.EVENT_DOWN,
         SystemEvent.EVENT_SELECT1]).m_menuIndex = 2 ∧
     m_menuItems = ["Home", "Settings", "About", "Exit"]) ∧
    (∀ s : ModelState, s.m_currentState = SystemState.STATE_MENU →
      (s.m_menuIndex = 0 → handleEvent s SystemEvent.EVENT_SELECT1 = s) ∧
      (s.m_menuIndex = 1 →
        (handleEvent s SystemEvent.EVENT_SELECT1).m_currentState =
          SystemState.STATE_SETTINGS) ∧
      (s.m_menuIndex = 2 →
        (handleEvent s SystemEvent.EVENT_SELECT1).m_currentState =
          SystemState.STATE_ABOUT) ∧
      (s.m_menuIndex = 3 →
        (handleEvent s SystemEvent.EVENT_SELECT1).m_currentState =
          SystemState.STATE_CONFIRM_EXIT)) := by
  refine ⟨⟨by decide, by decide, rfl⟩, ?_⟩
  intro s hs
  have hroute : handleEvent s SystemEvent.EVENT_SELECT1 =
      handleMenuState s SystemEvent.EVENT_SELECT1 := by
    unfold handleEvent
    have : getCurrentState s true = SystemState.STATE_MENU := by
      rw [show getCurrentState s true = s.m_currentState from rfl, hs]
    rw [this]
  have hIdx : getMenuIndex s true = s.m_menuIndex := rfl
  refine ⟨?_, ?_, ?_, ?_⟩ <;> intro hi <;>
    rw [hroute] <;>
    unfold handleMenuState <;>
    simp only [hIdx, hi] <;>
    norm_num <;>
    simp [setState, hs]

/-- Witness for the dispatch part of C2 at (Menu, index 1). -/
theorem claim_C2_witness :
    (handleEvent { m_menuIndex := 1, m_currentState := SystemState.STATE_MENU,
                   m_stateChanged := false }
        SystemEvent.EVENT_SELECT1).m_currentState = SystemState.STATE_SETTINGS :=
  ((claim_C2_select_dispatch.2
      { m_menuIndex := 1, m_currentState := SystemState.STATE_MENU,
        m_stateChanged := false } rfl).2.1) rfl

/-- The (state, event) pairs for which the §4.2 transition table lists
an action: Menu with Up/Down/Select1, Settings/About with Left/Select2,
ConfirmExit with Left/Select2/Select1.  Every other pair is a dash or
unlisted in the table. -/
def tableMapped : SystemState → SystemEvent → Bool
  | SystemState.STATE_MENU, SystemEvent.EVENT_UP => true
  | SystemState.STATE_MENU, SystemEvent.EVENT_DOWN => true
  | SystemState.STATE_MENU, SystemEvent.EVENT_SELECT1 => true
  | SystemState.STATE_SETTINGS, SystemEvent.EVENT_LEFT => true
  | SystemState.STATE_SETTINGS, SystemEvent.EVENT_SELECT2 => true
  | SystemState.STATE_ABOUT, SystemEvent.EVENT_LEFT => true
  | SystemState.STATE_ABOUT, SystemEvent.EVENT_SELECT2 => true
  | SystemState.STATE_CONFIRM_EXIT, SystemEvent.EVENT_LEFT => true
  | SystemState.STATE_CONFIRM_EXIT, SystemEvent.EVENT_SELECT2 => true
  | SystemState.STATE_CONFIRM_EXIT, SystemEvent.EVENT_SELECT1 => true
  | _, _ => false

/-- Claim C8: the FSM transition relation is total with identity as the
default — for every (state, event) pair not listed in the §4.2 table
(including Timeout, Right, None, and any event unmapped in the current
state), handleEvent leaves the FSM state unchanged. -/
theorem claim_C8_fsm_total_default_identity (s : ModelState) (e : SystemEvent)
    (h : tableMapped s.m_currentState e = false) :
    (handleEvent s e).m_currentState = s.m_currentState := by
  have hroute : getCurrentState s true = s.m_currentState := rfl
  unfold handleEvent
  rw [hroute]
  cases hs : s.m_currentState <;> rw [hs] at h <;> cases e <;>
    simp_all [tableMapped, handleMenuState, handleSettingsState,
      handleAboutState, handleConfirmExitState, incrementMenuIndex,
      decrementMenuIndex, hs]

/-- Witness for C8: a Timeout event in the initial (Menu) state leaves
the FSM state unchanged. -/
theorem claim_C8_witness :
    (handleEvent initialModel SystemEvent.EVENT_TIMEOUT).m_currentState =
      initialModel.m_currentState :=
  claim_C8_fsm_total_default_identity initialModel SystemEvent.EVENT_TIMEOUT
    (by decide)

lemma readButtonsAux_snd (raw : Nat → Bool) (t : Nat) :
    ∀ (bs : List ButtonConfig) (i : Nat),
      (readButtonsAux raw t bs i).2 =
        (firstQualifying raw t bs i).elim SystemEvent.EVENT_NONE buttonEvent := by
  intro bs
  induction bs with
  | nil => intro i; rfl
  | cons b rest ih =>
    intro i
    by_cases h1 : (raw i != b.lastState) = true
    · simp only [readButtonsAux, firstQualifying, qualifies, h1, if_true,
        DEBOUNCE_DELAY]
      simp [Nat.sub_self, ih]
    · by_cases h2 : t - b.lastDebounceTime > DEBOUNCE_DELAY
      · by_cases h3 : (!b.pressed && (raw i == false)) = true
        · simp only [readButtonsAux, firstQualifying, qualifies, h1]
          simp at h3
          simp [h2, h3]
        · simp only [readButtonsAux, firstQualifying, qualifies, h1]
          simp at h3
          have hcond : ¬(b.pressed = false ∧ raw i = false) := by
            rintro ⟨hp, hr⟩
            rw [h3 hp] at hr
            exact Bool.noConfusion hr
          simp [h2, hcond, ih]
      · simp only [readButtonsAux, firstQualifying, qualifies, h1]
        simp [h2, ih]

/-- Claim C3: (i) one readButtons pass over the six buttons returns at
most one event — exactly the event of the first button slot (in the
fixed priority order Up, Down, Left, Right, Select1, Select2) whose
press branch qualifies this cycle, EVENT_NONE when no slot qualifies;
(ii) a button that is already pressed, or whose raw level is HIGH (in
particular one undergoing a release transition), never qualifies, so a
release never yields an event; (iii) on the spec scenario trace with two
press edges 20 ms apart — inside the 50 ms debounce window — on the Up
line, the poll loop emits exactly one event. -/
theorem claim_C3_debounce :
    (∀ (buttons : List ButtonConfig) (raw : Nat → Bool) (t : Nat),
      (readButtons buttons raw t).2 =
        (firstQualifying raw t buttons 0).elim SystemEvent.EVENT_NONE buttonEvent) ∧
    (∀ (raw : Nat → Bool) (t i : Nat) (b : ButtonConfig),
      b.pressed = true ∨ raw i = true → qualifies raw t i b = false) ∧
    runPolls twoPressTrace initButtons = [SystemEvent.EVENT_UP] := by
  refine ⟨?_, ?_, by decide⟩
  · intro buttons raw t
    exact readButtonsAux_snd raw t buttons 0
  · intro raw t i b h
    rcases h with h | h <;> simp [qualifies, h]

/-- Witness for C3: a held-HIGH (released) line never qualifies. -/
theorem claim_C3_witness :
    qualifies (fun _ => true) 100 0
      { lastState := true, lastDebounceTime := 0, pressed := false } = false :=
  claim_C3_debounce.2.1 (fun _ => true) 100 0
    { lastState := true, lastDebounceTime := 0, pressed := false } (Or.inr rfl)

/-- Claim C9: waitForSystemReady returns true exactly when both the
display-ready bit (bit 1) and the controller-ready bit (bit 2) are in
the event-group mask it observes when the bounded wait returns (the
wait returns early once both are set within the timeout, otherwise at
the timeout with at least one bit missing); and whenever it returns
false during startup, setup() leaves g_systemInitialized false and
reports the startup failure, so the system never becomes operational. -/
theorem claim_C9_waitForSystemReady :
    (∀ g : Nat, waitForSystemReady (some g) = true ↔
      (g.testBit 1 = true ∧ g.testBit 2 = true)) ∧
    (∀ group : Option Nat, waitForSystemReady group = false →
      setupReadyPhase group = (false, true)) := by
  constructor
  · intro g
    have hunfold : waitForSystemReady (some g) = ((g &&& 6) == 6) := rfl
    rw [hunfold, beq_iff_eq]
    constructor
    · intro h
      have ht1 := congrArg (fun x => Nat.testBit x 1) h
      have ht2 := congrArg (fun x => Nat.testBit x 2) h
      simp only [Nat.testBit_and] at ht1 ht2
      rw [show Nat.testBit 6 1 = true from rfl] at ht1
      rw [show Nat.testBit 6 2 = true from rfl] at ht2
      simp only [Bool.and_true] at ht1 ht2
      exact ⟨ht1, ht2⟩
    · rintro ⟨h1, h2⟩
      apply Nat.eq_of_testBit_eq
      intro i
      rw [Nat.testBit_and]
      match i with
      | 0 => rw [show Nat.testBit 6 0 = false from rfl]; simp
      | 1 => rw [h1]; simp
      | 2 => rw [h2]; simp
      | n + 3 =>
        have h8 : (2 : Nat) ^ 3 ≤ 2 ^ (n + 3) :=
          Nat.pow_le_pow_right (by norm_num) (by omega)
        have hlt : 6 < 2 ^ (n + 3) := lt_of_lt_of_le (by norm_num) h8
        rw [Nat.testBit_lt_two_pow hlt]
        simp
  · intro group h
    simp [setupReadyPhase, h]

/-- Witness for C9: with no readiness bit ever set, waitForSystemReady
fails and setup() reports a startup failure without becoming
operational. -/
theorem claim_C9_witness : setupReadyPhase (some 0) = (false, true) :=
  claim_C9_waitForSystemReady.2 (some 0) rfl

end ESP32Menu
